import Mathlib

/-!
Verification of the rovioli application lifecycle controller
(`applications/rovioli/app/rovioli-app.cc`).

The development shallowly embeds the controller code: the filesystem probes
`common::fileExists` / `common::pathExists` become a pair of boolean
predicates, the save-target allocation loop of `RovioliApp::init` becomes a
fueled recursion over candidate indices, and the side-effecting calls into
the opaque processing engine (`RovioliNode`) and the message flow become
explicit actions collected in traces.
-/

namespace Rovioli

/-- Filesystem state observed by the allocation loop, as a pair of pure
predicates: `fileExists` models `common::fileExists` (the path denotes an
existing regular file) and `pathExists` models `common::pathExists` (the
path denotes any existing filesystem entry).  Both helpers live outside
this translation unit; only their boolean answers matter here. -/
structure FileSystem where
  fileExists : String → Bool
  pathExists : String → Bool

/-- The k-th candidate path probed by the allocation loop of
`RovioliApp::init` (lines 199-208): the loop variable `save_map_folder_`
starts at the requested folder and, after `counter` iterations, holds
`FLAGS_save_map_folder + "_" + std::to_string(counter - 1)`. -/
def allocCandidate (base : String) : Nat → String
  | 0 => base
  | n + 1 => base ++ "_" ++ Nat.repr n

/-- Loop guard of the allocation loop (rovioli-app.cc line 202-204):
`common::fileExists(save_map_folder_) || (!FLAGS_overwrite_existing_map &&
common::pathExists(save_map_folder_))`. -/
def allocCond (fs : FileSystem) (overwrite : Bool) (path : String) : Bool :=
  fs.fileExists path || (!overwrite && fs.pathExists path)

/-- The allocation while-loop, indexed by the candidate number `k`
(`save_map_folder_` always equals `allocCandidate base k` at the head of
the loop).  The C++ loop is unbounded; `fuel` bounds the number of probes
and `none` reports fuel exhaustion (i.e., the C++ loop would still be
running). -/
def allocLoop (fs : FileSystem) (overwrite : Bool) (base : String) :
    Nat → Nat → Option String
  | 0, _ => none
  | fuel + 1, k =>
    if allocCond fs overwrite (allocCandidate base k) then
      allocLoop fs overwrite base fuel (k + 1)
    else
      some (allocCandidate base k)

/-- Save-target allocation performed by `RovioliApp::init` (lines 199-208):
`save_map_folder_ = FLAGS_save_map_folder;` and, only when the flag is
non-empty, the suffix-appending loop. -/
def allocate (fs : FileSystem) (overwrite : Bool) (base : String)
    (fuel : Nat) : Option String :=
  if base.isEmpty then some base
  else allocLoop fs overwrite base fuel 0

theorem allocLoop_eq_of_least (fs : FileSystem) (overwrite : Bool)
    (base : String) :
    ∀ fuel k m, k ≤ m → m < k + fuel →
      (∀ j, k ≤ j → j < m →
        allocCond fs overwrite (allocCandidate base j) = true) →
      allocCond fs overwrite (allocCandidate base m) = false →
      allocLoop fs overwrite base fuel k = some (allocCandidate base m)
  | 0, k, m, hkm, hlt, _, _ => absurd hlt (by omega)
  | fuel + 1, k, m, hkm, hlt, hbusy, hfree => by
    rcases Nat.eq_or_lt_of_le hkm with heq | hlt'
    · subst heq
      simp [allocLoop, hfree]
    · have hk : allocCond fs overwrite (allocCandidate base k) = true :=
        hbusy k le_rfl hlt'
      simp only [allocLoop, hk, if_true]
      exact allocLoop_eq_of_least fs overwrite base fuel (k + 1) m hlt'
        (by omega) (fun j hj hj2 => hbusy j (by omega) hj2) hfree

theorem allocCond_no_overwrite (fs : FileSystem) (path : String)
    (hmono : ∀ s, fs.fileExists s = true → fs.pathExists s = true) :
    allocCond fs false path = fs.pathExists path := by
  cases h : fs.fileExists path with
  | true => simp [allocCond, h, hmono path h]
  | false => simp [allocCond, h]

/-- C3: when the requested save path `p` already exists and overwrite is not
allowed, the allocation loop of `init` returns `p_n = p ++ "_" ++ n` for the
smallest `n = 0, 1, 2, …` such that `p_n` is not an existing filesystem
entry; the result is distinct from `p` and from every existing path.  The
hypothesis `hmono` records that a path denoting an existing regular file is
in particular an existing filesystem entry. -/
theorem c3_smallest_free_suffix (fs : FileSystem) (base : String)
    (n fuel : Nat)
    (hmono : ∀ s, fs.fileExists s = true → fs.pathExists s = true)
    (hbase : fs.pathExists base = true)
    (hne : base.isEmpty = false)
    (hbusy : ∀ j, j < n → fs.pathExists (allocCandidate base (j + 1)) = true)
    (hfree : fs.pathExists (allocCandidate base (n + 1)) = false)
    (hfuel : n + 2 ≤ fuel) :
    allocate fs false base fuel = some (allocCandidate base (n + 1))
      ∧ allocCandidate base (n + 1) ≠ base
      ∧ ∀ q, fs.pathExists q = true → allocCandidate base (n + 1) ≠ q := by
  refine ⟨?_, ?_, ?_⟩
  · rw [allocate, hne]
    simp only [Bool.false_eq_true, if_false]
    refine allocLoop_eq_of_least fs false base fuel 0 (n + 1) (by omega)
      (by omega) ?_ ?_
    · intro j _ hj
      rw [allocCond_no_overwrite fs _ hmono]
      match j with
      | 0 => exact hbase
      | j + 1 => exact hbusy j (by omega)
    · rw [allocCond_no_overwrite fs _ hmono]
      exact hfree
  · intro h
    rw [h, hbase] at hfree
    exact Bool.true_eq_false.mp hfree
  · intro q hq h
    rw [h, hq] at hfree
    exact Bool.true_eq_false.mp hfree

/-- Witness for C3, matching the spec scenario: `/maps/out` and `/maps/out_0`
exist (as directories, not regular files), overwrite is disabled, and the
allocator returns `/maps/out_1`, the existing-free candidate with the
smallest suffix. -/
theorem c3_smallest_free_suffix_witness :
    allocate
        { fileExists := fun _ => false,
          pathExists := fun s => s == "/maps/out" || s == "/maps/out_0" }
        false "/maps/out" 3
      = some (allocCandidate "/maps/out" 2)
      ∧ allocCandidate "/maps/out" 2 ≠ "/maps/out"
      ∧ ∀ q,
          (fun s => s == "/maps/out" || s == "/maps/out_0") q = true →
          allocCandidate "/maps/out" 2 ≠ q :=
  c3_smallest_free_suffix
    { fileExists := fun _ => false,
      pathExists := fun s => s == "/maps/out" || s == "/maps/out_0" }
    "/maps/out" 1 3
    (fun _ h => Bool.noConfusion h)
    (by decide)
    (by decide)
    (fun j hj => by
      have hj0 : j = 0 := by omega
      subst hj0
      decide)
    (by decide)
    (by omega)

/-- C1 counterexample: with overwrite allowed, the allocation does NOT
always resolve to the requested path.  If the requested path denotes an
existing regular file (`common::fileExists` is true), the loop guard fires
even with `FLAGS_overwrite_existing_map = true` and a numeric suffix is
appended: the result is `/maps/out_0`, not `/maps/out`. -/
theorem c1_counterexample :
    allocate
        { fileExists := fun s => s == "/maps/out",
          pathExists := fun s => s == "/maps/out" }
        true "/maps/out" 3
      = some "/maps/out_0"
      ∧ ("/maps/out_0" : String) ≠ "/maps/out" := by
  constructor
  · decide
  · decide

/-- C1 (amended): with overwrite allowed, the allocation resolves to the
requested path `p` itself — with no numeric suffix appended — provided `p`
does not denote an existing regular file; whether `p` exists as any other
kind of filesystem entry (e.g. a directory holding a previous map) is
irrelevant, since with `overwrite = true` the loop guard reduces to
`common::fileExists`. -/
theorem c1_overwrite_keeps_requested_path (fs : FileSystem) (base : String)
    (fuel : Nat) (hfile : fs.fileExists base = false) (hfuel : 1 ≤ fuel) :
    allocate fs true base fuel = some base := by
  rw [allocate]
  cases hb : base.isEmpty with
  | true => rfl
  | false =>
    simp only [Bool.false_eq_true, if_false]
    match fuel, hfuel with
    | fuel + 1, _ =>
      have hcond : allocCond fs true base = false := by
        simp [allocCond, hfile]
      simp [allocLoop, allocCandidate, hcond]

/-- Witness for the amended C1: the requested folder exists as a directory,
overwrite is allowed, and the allocation returns the folder unchanged. -/
theorem c1_overwrite_keeps_requested_path_witness :
    allocate
        { fileExists := fun _ => false,
          pathExists := fun s => s == "/maps/out" }
        true "/maps/out" 1
      = some "/maps/out" :=
  c1_overwrite_keeps_requested_path
    { fileExists := fun _ => false, pathExists := fun s => s == "/maps/out" }
    "/maps/out" 1 rfl (by omega)

/-- Side-effecting calls issued by the controller, collected in traces.
`saveMapAndOptionallyOptimize` is the persist operation on the opaque
engine (`rovio_localization_node_->saveMapAndOptionallyOptimize(folder,
overwrite, optimize)`); the remaining constructors are the calls issued by
`RovioliApp::shutdown` and `RovioliApp::run`. -/
inductive Action where
  | saveMapAndOptionallyOptimize (folder : String)
      (overwrite : Bool) (optimize : Bool)
  | nodeShutdown
  | flowShutdown
  | flowWaitUntilIdle
  | spinnerStart
  | nodeStart
  deriving DecidableEq, Repr

/-- `RovioliApp::saveMap` (rovioli-app.cc lines 246-255): if
`save_map_folder_` is non-empty, call
`saveMapAndOptionallyOptimize(save_map_folder_, FLAGS_overwrite_existing_map,
FLAGS_optimize_map_to_localization_map)` and return `true`; otherwise return
`false`.  The result of the engine call is not inspected by the source —
`persistSucceeded` models whether the persist operation (e.g. the
filesystem write) actually succeeded, and deliberately does not occur in
the body, mirroring the unconditional `return true;`.  The returned list
is the trace of engine calls issued. -/
def saveMap (save_map_folder : String)
    (overwrite_existing_map optimize_map_to_localization_map : Bool)
    (persistSucceeded : Bool) : Bool × List Action :=
  if !save_map_folder.isEmpty then
    (true, [Action.saveMapAndOptionallyOptimize save_map_folder
      overwrite_existing_map optimize_map_to_localization_map])
  else
    (false, [])

/-- `RovioliApp::saveMapCallback` (lines 240-244): ignores the request and
response payloads and returns `saveMap()`. -/
def saveMapCallback (save_map_folder : String)
    (overwrite_existing_map optimize_map_to_localization_map : Bool)
    (persistSucceeded : Bool) : Bool × List Action :=
  saveMap save_map_folder overwrite_existing_map
    optimize_map_to_localization_map persistSucceeded

/-- C2 counterexample: with a non-empty save folder, `saveMap` returns
`true` even when the persist operation failed (fourth argument `false`,
modelling e.g. a filesystem write failure): the failure is not surfaced as
a `false` result, because the source ignores the engine call's outcome and
unconditionally returns `true`. -/
theorem c2_counterexample :
    (saveMap "/maps/out" false false false).1 = true := by
  decide

/-- C2 (amended): `saveMap` (and hence the `save_map` service callback)
returns `true` exactly when the configured save folder is non-empty; the
outcome of the persist operation has no influence on the returned boolean,
so a persist failure is NOT surfaced to the caller. -/
theorem c2_result_ignores_persist_outcome (save_map_folder : String)
    (overwrite optimize persistSucceeded : Bool) :
    (saveMap save_map_folder overwrite optimize persistSucceeded).1
        = !save_map_folder.isEmpty
      ∧ (saveMapCallback save_map_folder overwrite optimize
          persistSucceeded).1 = !save_map_folder.isEmpty := by
  rw [saveMapCallback]
  cases h : save_map_folder.isEmpty <;> simp [saveMap, h]

/-- C4: with an empty configured save folder, `saveMap` returns `false`
immediately, issues no engine call and therefore performs no filesystem
write, and the `save_map` service callback reports the same failure for
every request. -/
theorem c4_empty_folder_save_fails (save_map_folder : String)
    (hempty : save_map_folder.isEmpty = true)
    (overwrite optimize persistSucceeded : Bool) :
    saveMap save_map_folder overwrite optimize persistSucceeded
        = (false, [])
      ∧ saveMapCallback save_map_folder overwrite optimize persistSucceeded
        = (false, []) := by
  rw [saveMapCallback]
  simp [saveMap, hempty]

/-- Witness for C4: the default `--save_map_folder` value is the empty
string, and in that configuration a save request fails with no engine
call. -/
theorem c4_empty_folder_save_fails_witness :
    saveMap "" false false true = (false, [])
      ∧ saveMapCallback "" false false true = (false, []) :=
  c4_empty_folder_save_fails "" rfl false false true

/-- `RovioliApp::shutdown` (lines 257-261), as the ordered trace of the
three calls it makes before returning:
`rovio_localization_node_->shutdown(); message_flow_->shutdown();
message_flow_->waitUntilIdle();`. -/
def shutdownTrace : List Action :=
  [Action.nodeShutdown, Action.flowShutdown, Action.flowWaitUntilIdle]

/-- C6: `shutdown()` first stops the engine (`nodeShutdown`), then flushes
the message/output channels (`flowShutdown` followed by
`flowWaitUntilIdle`), and only then returns: all three calls occur in the
trace emitted before `shutdown()` returns, and the engine stop strictly
precedes both flush steps.  (That `nodeShutdown` itself blocks until the
engine has stopped is a property of the opaque `RovioliNode` collaborator,
modelled from the spec as a single synchronous action.) -/
theorem c6_shutdown_stops_then_flushes :
    Action.nodeShutdown ∈ shutdownTrace
      ∧ Action.flowShutdown ∈ shutdownTrace
      ∧ Action.flowWaitUntilIdle ∈ shutdownTrace
      ∧ shutdownTrace.indexOf Action.nodeShutdown
          < shutdownTrace.indexOf Action.flowShutdown
      ∧ shutdownTrace.indexOf Action.flowShutdown
          < shutdownTrace.indexOf Action.flowWaitUntilIdle := by
  decide

/-- The two controller-level calls `main` can make after its wait loop
observes the exit condition (lines 293-296). -/
inductive MainStep where
  | appShutdown
  | appSaveMap
  deriving DecidableEq, Repr

/-- Exit sequence of `main` (lines 287-296): once `ros::ok()` fails or the
exhaustion signal `end_of_days_signal_received` is observed, `main` calls
`rovioli_app.shutdown()` and then, only if `FLAGS_save_map_on_shutdown` is
set, `rovioli_app.saveMap()`. -/
def mainExitSteps (save_map_on_shutdown : Bool) : List MainStep :=
  [MainStep.appShutdown]
    ++ (if save_map_on_shutdown then [MainStep.appSaveMap] else [])

/-- C7: on process exit, `shutdown()` is always the first step, the final
save is attempted exactly when `FLAGS_save_map_on_shutdown` is enabled, and
when attempted it never occupies the first position, i.e. it strictly
follows the shutdown. -/
theorem c7_shutdown_precedes_final_save (save_map_on_shutdown : Bool) :
    (mainExitSteps save_map_on_shutdown).head? = some MainStep.appShutdown
      ∧ (MainStep.appSaveMap ∈ mainExitSteps save_map_on_shutdown
          ↔ save_map_on_shutdown = true)
      ∧ (mainExitSteps save_map_on_shutdown).indexOf MainStep.appSaveMap
          ≠ 0 := by
  cases save_map_on_shutdown <;> decide

/-- The gflags read by the rovioli translation unit (definitions at
rovioli-app.cc lines 20-49), after the constructor has layered the ROS
parameter overrides on top of the command-line values. -/
structure Flags where
  vio_localization_map_folder : String
  ncamera_calibration : String
  imu_parameters_maplab : String
  external_imu_parameters_rovio : String
  save_map_folder : String
  overwrite_existing_map : Bool
  optimize_map_to_localization_map : Bool
  save_map_on_shutdown : Bool
  map_builder_save_image_as_resources : Bool
  deriving DecidableEq, Repr

/-- Outcomes of the external load operations invoked by `RovioliApp::init`;
each field is the boolean (or numeric) answer the opaque collaborator would
give.  `summaryLandmarkCols` is `localization_map_->GLandmarkPosition().cols()`
after deriving a summary from the full map. -/
structure InitEnv where
  loadSummaryMapOk : Bool
  loadFullMapOk : Bool
  summaryLandmarkCols : Nat
  cameraOk : Bool
  imuOk : Bool
  imuSigmasValid : Bool
  rovioSigmasLoadOk : Bool
  rovioSigmasValid : Bool
  fs : FileSystem

/-- How `init` ended: `returned b` is a normal `return b`; `checkAborted`
is a failed `CHECK`/`CHECK_GT` (glog terminates the process); `outOfFuel`
means the allocation loop was still probing when the fuel ran out. -/
inductive InitOutcome where
  | returned (success : Bool)
  | checkAborted
  | outOfFuel
  deriving DecidableEq, Repr

/-- Observable outcome of `RovioliApp::init`: the control outcome, the
cached `save_map_folder_`, the number of `LOG(WARNING)` / `LOG(ERROR)`
lines emitted, whether the full-VI-map fallback load was attempted, and
whether `message_flow_` / `rovio_localization_node_` were constructed. -/
structure InitResult where
  outcome : InitOutcome
  save_map_folder : String
  warnings : Nat
  errors : Nat
  triedFullMapFallback : Bool
  flowConstructed : Bool
  nodeConstructed : Bool
  deriving DecidableEq, Repr

/-- Result of `init` dying on a failed `CHECK` before reaching the
construction of the message flow (every `CHECK` in `init` precedes line
211). -/
def checkAbortResult (warnings : Nat) (tried : Bool) : InitResult :=
  { outcome := InitOutcome.checkAborted, save_map_folder := "",
    warnings := warnings, errors := 0, triedFullMapFallback := tried,
    flowConstructed := false, nodeConstructed := false }

/-- `RovioliApp::init` (rovioli-app.cc lines 143-221), in source order:
optionally load the localization summary map with fallback to a full VI
map (lines 144-163, `LOG(WARNING)` then `CHECK` then `CHECK_GT`), load the
camera calibration (`CHECK`, lines 166-169), load and validate the maplab
IMU parameters (`CHECK`s, lines 171-176), optionally load and validate the
external ROVIO sigmas (`CHECK`s, lines 180-188), reject
`--map_builder_save_image_as_resources` without a save folder with
`LOG(ERROR); return false;` (lines 190-195), allocate the save target
(lines 199-208), construct the message flow and the node (lines 211-217)
and `return true` (lines 219-220). -/
def init (flags : Flags) (env : InitEnv) (fuel : Nat) : InitResult :=
  let summaryLoadFailed :=
    !flags.vio_localization_map_folder.isEmpty && !env.loadSummaryMapOk
  let warnings := if summaryLoadFailed then 1 else 0
  if summaryLoadFailed && !env.loadFullMapOk then
    checkAbortResult warnings true
  else if summaryLoadFailed && env.summaryLandmarkCols == 0 then
    checkAbortResult warnings true
  else if !env.cameraOk then
    checkAbortResult warnings summaryLoadFailed
  else if !env.imuOk then
    checkAbortResult warnings summaryLoadFailed
  else if !env.imuSigmasValid then
    checkAbortResult warnings summaryLoadFailed
  else if !flags.external_imu_parameters_rovio.isEmpty
      && !env.rovioSigmasLoadOk then
    checkAbortResult warnings summaryLoadFailed
  else if !flags.external_imu_parameters_rovio.isEmpty
      && !env.rovioSigmasValid then
    checkAbortResult warnings summaryLoadFailed
  else if flags.map_builder_save_image_as_resources
      && flags.save_map_folder.isEmpty then
    { outcome := InitOutcome.returned false, save_map_folder := "",
      warnings := warnings, errors := 1,
      triedFullMapFallback := summaryLoadFailed,
      flowConstructed := false, nodeConstructed := false }
  else
    match allocate env.fs flags.overwrite_existing_map flags.save_map_folder
        fuel with
    | none =>
      { outcome := InitOutcome.outOfFuel,
        save_map_folder := flags.save_map_folder, warnings := warnings,
        errors := 0, triedFullMapFallback := summaryLoadFailed,
        flowConstructed := false, nodeConstructed := false }
    | some folder =>
      { outcome := InitOutcome.returned true, save_map_folder := folder,
        warnings := warnings, errors := 0,
        triedFullMapFallback := summaryLoadFailed,
        flowConstructed := true, nodeConstructed := true }

/-- C8: when `--map_builder_save_image_as_resources` is set while the save
folder is empty (and the preceding load steps succeed, so that control
reaches the check at line 190), `init` logs an error and returns `false`
without constructing the message flow or the engine node, and without
aborting the host process. -/
theorem c8_resources_require_save_folder (flags : Flags) (env : InitEnv)
    (fuel : Nat)
    (haux : flags.map_builder_save_image_as_resources = true)
    (hfolder : flags.save_map_folder = "")
    (hsum : env.loadSummaryMapOk = true)
    (hcam : env.cameraOk = true)
    (himu : env.imuOk = true)
    (hsig : env.imuSigmasValid = true)
    (hrovio : flags.external_imu_parameters_rovio = "") :
    (init flags env fuel).outcome = InitOutcome.returned false
      ∧ (init flags env fuel).errors = 1
      ∧ (init flags env fuel).flowConstructed = false
      ∧ (init flags env fuel).nodeConstructed = false := by
  simp [init, haux, hfolder, hsum, hcam, himu, hsig, hrovio,
    show ("" : String).isEmpty = true from rfl]

/-- Concrete flag configuration for the C8 scenario: resource saving
enabled, save folder empty, everything else at the source defaults. -/
def flagsC8 : Flags :=
  { vio_localization_map_folder := "",
    ncamera_calibration := "ncamera.yaml",
    imu_parameters_maplab := "imu-maplab.yaml",
    external_imu_parameters_rovio := "", save_map_folder := "",
    overwrite_existing_map := false,
    optimize_map_to_localization_map := false,
    save_map_on_shutdown := true,
    map_builder_save_image_as_resources := true }

/-- External-load outcomes for the C8 scenario: every load succeeds. -/
def envC8 : InitEnv :=
  { loadSummaryMapOk := true, loadFullMapOk := true,
    summaryLandmarkCols := 1, cameraOk := true, imuOk := true,
    imuSigmasValid := true, rovioSigmasLoadOk := true,
    rovioSigmasValid := true,
    fs := { fileExists := fun _ => false, pathExists := fun _ => false } }

/-- Witness for C8: a concrete configuration with resource saving enabled
and no save folder, where every load succeeds. -/
theorem c8_resources_require_save_folder_witness :
    (init flagsC8 envC8 1).outcome = InitOutcome.returned false
      ∧ (init flagsC8 envC8 1).errors = 1
      ∧ (init flagsC8 envC8 1).flowConstructed = false
      ∧ (init flagsC8 envC8 1).nodeConstructed = false :=
  c8_resources_require_save_folder flagsC8 envC8 1 rfl rfl rfl rfl rfl rfl
    rfl

/-- C9: when a localization map folder is configured and loading it as a
summary map fails, `init` logs exactly one warning (not an error) and falls
back to loading a full VI map from the same folder; if that fallback load
also fails, the `CHECK` at line 152 aborts the process — initialization
fails fatally, nothing is constructed, and the controller never reaches
the running state. -/
theorem c9_localization_map_fallback (flags : Flags) (env : InitEnv)
    (fuel : Nat)
    (hfolder : flags.vio_localization_map_folder.isEmpty = false)
    (hfail : env.loadSummaryMapOk = false) :
    (init flags env fuel).triedFullMapFallback = true
      ∧ (init flags env fuel).warnings = 1
      ∧ (env.loadFullMapOk = false →
          init flags env fuel
            = { outcome := InitOutcome.checkAborted, save_map_folder := "",
                warnings := 1, errors := 0, triedFullMapFallback := true,
                flowConstructed := false, nodeConstructed := false }) := by
  have h1 : (init flags env fuel).triedFullMapFallback = true
      ∧ (init flags env fuel).warnings = 1 := by
    rw [init]
    simp only [hfolder, hfail, Bool.not_false, Bool.not_true, Bool.and_self,
      Bool.true_and, if_true, Bool.false_and]
    split
    · exact ⟨rfl, rfl⟩
    · split
      · exact ⟨rfl, rfl⟩
      · split
        · exact ⟨rfl, rfl⟩
        · split
          · exact ⟨rfl, rfl⟩
          · split
            · exact ⟨rfl, rfl⟩
            · split
              · exact ⟨rfl, rfl⟩
              · split
                · exact ⟨rfl, rfl⟩
                · split
                  · exact ⟨rfl, rfl⟩
                  · split <;> exact ⟨rfl, rfl⟩
  refine ⟨h1.1, h1.2, ?_⟩
  intro hfull
  rw [init]
  simp only [hfolder, hfail, hfull, Bool.not_false, Bool.not_true,
    Bool.and_self, Bool.true_and, if_true]
  rfl

/-- Concrete flag configuration for the C9 scenario: a localization map
folder is configured. -/
def flagsC9 : Flags :=
  { vio_localization_map_folder := "/loc/map",
    ncamera_calibration := "ncamera.yaml",
    imu_parameters_maplab := "imu-maplab.yaml",
    external_imu_parameters_rovio := "", save_map_folder := "",
    overwrite_existing_map := false,
    optimize_map_to_localization_map := false,
    save_map_on_shutdown := true,
    map_builder_save_image_as_resources := false }

/-- External-load outcomes for the C9 scenario: both the summary-map load
and the fallback full-map load fail. -/
def envC9 : InitEnv :=
  { loadSummaryMapOk := false, loadFullMapOk := false,
    summaryLandmarkCols := 0, cameraOk := true, imuOk := true,
    imuSigmasValid := true, rovioSigmasLoadOk := true,
    rovioSigmasValid := true,
    fs := { fileExists := fun _ => false, pathExists := fun _ => false } }

/-- Witness for C9: folder `/loc/map` configured, the summary-map load
fails, and the full-map load also fails: `init` records one warning, the
attempted fallback, and a fatal abort. -/
theorem c9_localization_map_fallback_witness :
    (init flagsC9 envC9 1).triedFullMapFallback = true
      ∧ (init flagsC9 envC9 1).warnings = 1
      ∧ (envC9.loadFullMapOk = false →
          init flagsC9 envC9 1
            = { outcome := InitOutcome.checkAborted, save_map_folder := "",
                warnings := 1, errors := 0, triedFullMapFallback := true,
                flowConstructed := false, nodeConstructed := false }) :=
  c9_localization_map_fallback flagsC9 envC9 1 rfl rfl

/-- Controller state after construction: the member `initialized_`, the
cached member `save_map_folder_`, and the global flags read by the
post-initialization operations.  In the source the flags are globals; they
are carried in the state here so that a mutation by any operation would be
observable. -/
structure AppState where
  initialized : Bool
  save_map_folder : String
  flags : Flags
  deriving Repr

/-- The operations available on the controller after `init`, as invoked by
`main` and by the ROS `save_map` service.  The persist-outcome argument of
the save operations plays the same role as in `saveMap`. -/
inductive Op where
  | saveMapOp (persistSucceeded : Bool)
  | saveMapCallbackOp (persistSucceeded : Bool)
  | runOp
  | shutdownOp
  deriving DecidableEq, Repr

/-- One post-initialization operation: its successor state and the trace of
engine calls it issues.  `saveMap` (lines 246-255) reads the member
`save_map_folder_` and the globals `FLAGS_overwrite_existing_map` and
`FLAGS_optimize_map_to_localization_map` and assigns no member or global;
`run` (lines 223-233) starts the spinner and the node when `initialized_`
holds; `shutdown` (lines 257-261) issues the three shutdown calls.  None of
these functions writes `save_map_folder_`, `initialized_`, or any flag, so
every operation returns the state unchanged — exactly as in the source. -/
def step (s : AppState) : Op → AppState × List Action
  | Op.saveMapOp ok =>
    (s, (saveMap s.save_map_folder s.flags.overwrite_existing_map
      s.flags.optimize_map_to_localization_map ok).2)
  | Op.saveMapCallbackOp ok =>
    (s, (saveMapCallback s.save_map_folder s.flags.overwrite_existing_map
      s.flags.optimize_map_to_localization_map ok).2)
  | Op.runOp =>
    (s, if s.initialized then [Action.spinnerStart, Action.nodeStart]
      else [])
  | Op.shutdownOp => (s, shutdownTrace)

/-- Run a sequence of post-initialization operations, concatenating their
traces. -/
def runOps (s : AppState) : List Op → AppState × List Action
  | [] => (s, [])
  | op :: rest =>
    let r := step s op
    let r2 := runOps r.1 rest
    (r2.1, r.2 ++ r2.2)

theorem step_preserves_state (s : AppState) (op : Op) : (step s op).1 = s := by
  cases op <;> rfl

theorem runOps_fst (s : AppState) : ∀ ops : List Op, (runOps s ops).1 = s
  | [] => rfl
  | op :: rest => by
    rw [runOps]
    simp only [step_preserves_state]
    exact runOps_fst s rest

theorem step_persist_uses_config (s : AppState) (op : Op)
    (folder : String) (overwrite optimize : Bool)
    (hmem : Action.saveMapAndOptionallyOptimize folder overwrite optimize
      ∈ (step s op).2) :
    folder = s.save_map_folder
      ∧ overwrite = s.flags.overwrite_existing_map
      ∧ optimize = s.flags.optimize_map_to_localization_map := by
  cases op with
  | saveMapOp ok =>
    rw [step, saveMap] at hmem
    split at hmem
    · rcases List.mem_singleton.mp hmem with h
      cases h
      exact ⟨rfl, rfl, rfl⟩
    · cases hmem
  | saveMapCallbackOp ok =>
    rw [step, saveMapCallback, saveMap] at hmem
    split at hmem
    · rcases List.mem_singleton.mp hmem with h
      cases h
      exact ⟨rfl, rfl, rfl⟩
    · cases hmem
  | runOp =>
    rw [step] at hmem
    split at hmem <;> simp at hmem
  | shutdownOp =>
    rw [step, shutdownTrace] at hmem
    simp at hmem

/-- C10: once the controller is initialized, every post-initialization
operation leaves the resolved configuration unchanged, and every persist
call issued by any sequence of operations (service-triggered saves,
`saveMap`, `run`, `shutdown`) uses exactly the `save_map_folder_` cached at
initialization and the overwrite/optimize settings in effect then: no
operation observes a value different from any other. -/
theorem c10_config_stable_across_operations (s : AppState) (ops : List Op)
    (folder : String) (overwrite optimize : Bool)
    (hmem : Action.saveMapAndOptionallyOptimize folder overwrite optimize
      ∈ (runOps s ops).2) :
    (runOps s ops).1 = s
      ∧ folder = s.save_map_folder
      ∧ overwrite = s.flags.overwrite_existing_map
      ∧ optimize = s.flags.optimize_map_to_localization_map := by
  refine ⟨runOps_fst s ops, ?_⟩
  induction ops with
  | nil => cases hmem
  | cons op rest ih =>
    rw [runOps] at hmem
    simp only [step_preserves_state, List.mem_append] at hmem
    rcases hmem with h | h
    · exact step_persist_uses_config s op folder overwrite optimize h
    · exact ih h

/-- Flag configuration for the C10 scenario. -/
def flagsC10 : Flags :=
  { vio_localization_map_folder := "",
    ncamera_calibration := "ncamera.yaml",
    imu_parameters_maplab := "imu-maplab.yaml",
    external_imu_parameters_rovio := "", save_map_folder := "/maps/out",
    overwrite_existing_map := false,
    optimize_map_to_localization_map := false,
    save_map_on_shutdown := true,
    map_builder_save_image_as_resources := false }

/-- Initialized controller state for the C10 scenario: the allocation
resolved the save target to `/maps/out_0`. -/
def stateC10 : AppState :=
  { initialized := true, save_map_folder := "/maps/out_0",
    flags := flagsC10 }

/-- Witness for C10: a save, a shutdown, and a service-triggered save in
sequence leave the state unchanged, and the persist call observed in the
trace used exactly the cached path and the initialization-time
overwrite/optimize settings. -/
theorem c10_config_stable_across_operations_witness :
    (runOps stateC10
        [Op.saveMapOp true, Op.shutdownOp, Op.saveMapCallbackOp false]).1
        = stateC10
      ∧ "/maps/out_0" = stateC10.save_map_folder
      ∧ false = stateC10.flags.overwrite_existing_map
      ∧ false = stateC10.flags.optimize_map_to_localization_map :=
  c10_config_stable_across_operations stateC10
    [Op.saveMapOp true, Op.shutdownOp, Op.saveMapCallbackOp false]
    "/maps/out_0" false false (by decide)

/-- Atomic endpoints of the filesystem write performed by one persist
operation, tagged with the identifier of the execution context running
it. -/
inductive WriteEv where
  | beginWrite (tid : Nat)
  | endWrite (tid : Nat)
  deriving DecidableEq, Repr

/-- Modelled from the spec: the write phase of one persist operation
(`saveMapAndOptionallyOptimize` serializing the map to the resolved save
path), reduced to the two atomic endpoints of its filesystem write.  The
engine's implementation is an external collaborator; the spec describes
persist operations as writers against the resolved path whose writes must
never interleave. -/
def persistWriteEvents (tid : Nat) : List WriteEv :=
  [WriteEv.beginWrite tid, WriteEv.endWrite tid]

/-- Merges of the event sequences of two concurrently executing contexts
into one observed trace.  Because the source wraps
`saveMapAndOptionallyOptimize` in no mutual-exclusion primitive — neither
`saveMap` (lines 246-255) nor the service callback (lines 240-244) nor
`main` (lines 293-296) takes a lock, and the callback is served by the
`AsyncSpinner` thread pool concurrently with the main thread — every
interleaving of two concurrent persist operations is schedulable. -/
inductive Interleave : List WriteEv → List WriteEv → List WriteEv → Prop
  | nil : Interleave [] [] []
  | left (e : WriteEv) {xs ys zs : List WriteEv} :
      Interleave xs ys zs → Interleave (e :: xs) ys (e :: zs)
  | right (e : WriteEv) {xs ys zs : List WriteEv} :
      Interleave xs ys zs → Interleave xs (e :: ys) (e :: zs)

/-- C5 fails on the code: with no lock anywhere in the translation unit, a
schedulable trace of two overlapping save requests exists in which the
second writer begins before the first has finished — the trace
`begin 1, begin 2, end 1, end 2` is an interleaving of the two persist
write phases and is not one of the two serialized orders.  The claim's
mutual-exclusion invariant is the spec's stated intent (its design notes
require an explicit mutual-exclusion primitive around the persist
operation as a correctness requirement), so this is a defect of the code,
not of the claim. -/
theorem c5_unsynchronized_writes_can_interleave :
    Interleave (persistWriteEvents 1) (persistWriteEvents 2)
        [WriteEv.beginWrite 1, WriteEv.beginWrite 2,
          WriteEv.endWrite 1, WriteEv.endWrite 2]
      ∧ [WriteEv.beginWrite 1, WriteEv.beginWrite 2,
          WriteEv.endWrite 1, WriteEv.endWrite 2]
          ≠ persistWriteEvents 1 ++ persistWriteEvents 2
      ∧ [WriteEv.beginWrite 1, WriteEv.beginWrite 2,
          WriteEv.endWrite 1, WriteEv.endWrite 2]
          ≠ persistWriteEvents 2 ++ persistWriteEvents 1 := by
  refine ⟨?_, by decide, by decide⟩
  exact Interleave.left _
    (Interleave.right _ (Interleave.left _ (Interleave.right _
      Interleave.nil)))

end Rovioli
